import Mathlib

/-!
Shallow embedding of the `tutor-contrib-cloudfront` plugin: the CloudFront
API client (`tutorcloudfront/cloudfront/client.py`) and the reconciliation
command (`tutorcloudfront/commands.py`).

The remote CloudFront provider is modelled as an explicit state
(`AwsState`): the catalogs of custom cache policies, origin request
policies, response headers policies and distributions, plus a counter used
to generate fresh provider-assigned identifiers.  Every client operation
returns its result together with the (possibly updated) state and the list
of API calls it issued, so that call counts and call order are provable.
-/

set_option maxHeartbeats 1000000

namespace TutorCloudfront

/-! ### Python string and dict primitives -/

/-- Python `str.lower`, modelled per character (ASCII case mapping). -/
def pyLower (s : String) : String :=
  ⟨s.data.map Char.toLower⟩

/-- Replace a single character, as Python `str.replace(a, b)` does for
one-character patterns: every occurrence of `a` becomes `b`. -/
def replaceChar (a b c : Char) : Char :=
  if c = a then b else c

/-- Python `str.replace(a, b)` for one-character `a` and `b`. -/
def pyReplace (s : String) (a b : Char) : String :=
  ⟨s.data.map (replaceChar a b)⟩

/-- A Python `Dict[str, str]` in insertion order (no duplicate keys are
ever built by this program). -/
abbrev AliasDict := List (String × String)

/-- Python `dict.get(k)`: the value at the first matching key, if any. -/
def pyGet (d : AliasDict) (k : String) : Option String :=
  (List.find? (fun p => p.1 == k) d).map Prod.snd

/-- Insertion into a Python `dict`: overwriting an existing key keeps its
position (last write wins for the value), a new key is appended. -/
def pyDictInsert {V : Type} (d : List (String × V)) (k : String) (v : V) :
    List (String × V) :=
  if d.any (fun p => p.1 == k) then
    d.map (fun p => if p.1 == k then (k, v) else p)
  else
    d ++ [(k, v)]

/-- `CloudFrontClient.__sanitize_name`:
`name.lower().replace(".", "-").replace(" ", "-")`. -/
def sanitize_name (name : String) : String :=
  pyReplace (pyReplace (pyLower name) '.' '-') ' ' '-'

/-- The action of `sanitize_name` on one character: lowercase it, then
replace `'.'` and `' '` with `'-'`. -/
def sanitize_char (c : Char) : Char :=
  replaceChar ' ' '-' (replaceChar '.' '-' (Char.toLower c))

/-! ### Configuration documents built by the client -/

/-- A `HeadersConfig` block: behavior plus the `Headers` list with its
`Quantity`. -/
structure HeadersConfig where
  headerBehavior : String
  headersQuantity : Nat
  headersItems : List String
deriving DecidableEq

/-- A `CookiesConfig` block. -/
structure CookiesConfig where
  cookieBehavior : String
deriving DecidableEq

/-- A `QueryStringsConfig` block. -/
structure QueryStringsConfig where
  queryStringBehavior : String
deriving DecidableEq

/-- `ParametersInCacheKeyAndForwardedToOrigin` of a cache policy. -/
structure CacheKeyParams where
  enableAcceptEncodingGzip : Bool
  enableAcceptEncodingBrotli : Bool
  headersConfig : HeadersConfig
  cookiesConfig : CookiesConfig
  queryStringsConfig : QueryStringsConfig
deriving DecidableEq

/-- The `CachePolicyConfig` document. -/
structure CachePolicyConfig where
  name : String
  comment : String
  defaultTTL : Int
  maxTTL : Int
  minTTL : Int
  parametersInCacheKeyAndForwardedToOrigin : CacheKeyParams
deriving DecidableEq

/-- The `OriginRequestPolicyConfig` document. -/
structure OriginRequestPolicyConfig where
  name : String
  comment : String
  headersConfig : HeadersConfig
  cookiesConfig : CookiesConfig
  queryStringsConfig : QueryStringsConfig
deriving DecidableEq

/-- A `Quantity`/`Items` pair of strings, as used throughout the API. -/
structure StringItems where
  quantity : Nat
  items : List String
deriving DecidableEq

/-- The `CorsConfig` block of a response headers policy. -/
structure CorsConfig where
  originOverride : Bool
  accessControlAllowCredentials : Bool
  accessControlMaxAgeSec : Nat
  accessControlAllowOrigins : StringItems
  accessControlAllowHeaders : StringItems
  accessControlAllowMethods : StringItems
deriving DecidableEq

/-- The `ResponseHeadersPolicyConfig` document. -/
structure ResponseHeadersPolicyConfig where
  name : String
  comment : String
  corsConfig : CorsConfig
deriving DecidableEq

/-- The `ViewerCertificate` block of a distribution config.  The
`ACMCertificateArn` key is only present when set (modelled as `Option`). -/
structure ViewerCertificate where
  cloudFrontDefaultCertificate : Bool
  sslSupportMethod : String
  acmCertificateArn : Option String
deriving DecidableEq

/-- The `GeoRestriction` block. -/
structure GeoRestriction where
  quantity : Nat
  restrictionType : String
deriving DecidableEq

/-- The `AllowedMethods` block with its nested `CachedMethods`. -/
structure AllowedMethods where
  quantity : Nat
  items : List String
  cachedMethods : StringItems
deriving DecidableEq

/-- The `DefaultCacheBehavior` block. -/
structure DefaultCacheBehavior where
  targetOriginId : String
  compress : Bool
  viewerProtocolPolicy : String
  cachePolicyId : String
  originRequestPolicyId : String
  responseHeadersPolicyId : String
  allowedMethods : AllowedMethods
deriving DecidableEq

/-- The `CustomOriginConfig` block of an origin. -/
structure CustomOriginConfig where
  httpPort : Nat
  httpsPort : Nat
  originProtocolPolicy : String
  originSslProtocols : StringItems
  originReadTimeout : Nat
  originKeepaliveTimeout : Nat
deriving DecidableEq

/-- One entry of the `Origins.Items` list. -/
structure OriginSpec where
  id : String
  domainName : String
  customOriginConfig : CustomOriginConfig
deriving DecidableEq

/-- The `Origins` block. -/
structure OriginsSpec where
  quantity : Nat
  items : List OriginSpec
deriving DecidableEq

/-- The `DistributionConfig` document.  `Aliases` is only present when the
source adds it (`config["Aliases"] = {"Items": [alias_domain]}`), so it is
modelled as an optional `Items` list. -/
structure DistributionConfig where
  enabled : Bool
  staging : Bool
  isIPV6Enabled : Bool
  callerReference : String
  comment : String
  viewerCertificate : ViewerCertificate
  restrictions : GeoRestriction
  defaultCacheBehavior : DefaultCacheBehavior
  origins : OriginsSpec
  aliases : Option (List String)
deriving DecidableEq

/-- The `CachePolicyConfig` built by `CloudFrontClient.create_cache_policy`. -/
def mk_cache_policy_config (name : String) (min_ttl default_ttl max_ttl : Int) :
    CachePolicyConfig :=
  { name := sanitize_name name
    comment := "CloudFront cache policy for " ++ name ++ "."
    defaultTTL := default_ttl
    maxTTL := max_ttl
    minTTL := min_ttl
    parametersInCacheKeyAndForwardedToOrigin :=
      { enableAcceptEncodingGzip := true
        enableAcceptEncodingBrotli := true
        headersConfig :=
          { headerBehavior := "whitelist"
            headersQuantity := 1
            headersItems := ["Origin"] }
        cookiesConfig := { cookieBehavior := "none" }
        queryStringsConfig := { queryStringBehavior := "all" } } }

/-- The `OriginRequestPolicyConfig` built by
`CloudFrontClient.create_origin_request_policy`. -/
def mk_origin_request_policy_config (name : String) : OriginRequestPolicyConfig :=
  { name := sanitize_name name
    comment := "CloudFront origin request policy for " ++ name ++ "."
    headersConfig :=
      { headerBehavior := "whitelist"
        headersQuantity := 1
        headersItems := ["Origin"] }
    cookiesConfig := { cookieBehavior := "none" }
    queryStringsConfig := { queryStringBehavior := "all" } }

/-- The `ResponseHeadersPolicyConfig` built by
`CloudFrontClient.create_response_headers_policy`. -/
def mk_response_headers_policy_config (name : String) : ResponseHeadersPolicyConfig :=
  { name := sanitize_name name
    comment := "CloudFront response headers policy for " ++ name ++ "."
    corsConfig :=
      { originOverride := true
        accessControlAllowCredentials := false
        accessControlMaxAgeSec := 2592000
        accessControlAllowOrigins := { quantity := 1, items := ["*"] }
        accessControlAllowHeaders := { quantity := 1, items := ["*"] }
        accessControlAllowMethods := { quantity := 1, items := ["ALL"] } } }

/-- The `DistributionConfig` built by `CloudFrontClient.create_distribution`.
`alias = None` becomes the empty dict, exactly as in the source; the random
`str(uuid4())` caller reference is passed in as `callerRef`. -/
def mk_distribution_config (domain : String)
    (cache_policy_id origin_request_policy_id response_headers_policy_id : String)
    (aliasArg : Option AliasDict) (callerRef : String) : DistributionConfig :=
  let al := aliasArg.getD []
  let base : DistributionConfig :=
    { enabled := true
      staging := false
      isIPV6Enabled := true
      callerReference := callerRef
      comment := "Distribution config for " ++ domain
      viewerCertificate :=
        { cloudFrontDefaultCertificate := al.length == 0
          sslSupportMethod := if al.isEmpty then "static-ip" else "sni-only"
          acmCertificateArn := none }
      restrictions := { quantity := 0, restrictionType := "none" }
      defaultCacheBehavior :=
        { targetOriginId := domain
          compress := true
          viewerProtocolPolicy := "redirect-to-https"
          cachePolicyId := cache_policy_id
          originRequestPolicyId := origin_request_policy_id
          responseHeadersPolicyId := response_headers_policy_id
          allowedMethods :=
            { quantity := 2
              items := ["GET", "HEAD"]
              cachedMethods := { quantity := 2, items := ["GET", "HEAD"] } } }
      origins :=
        { quantity := 1
          items :=
            [{ id := domain
               domainName := domain
               customOriginConfig :=
                 { httpPort := 80
                   httpsPort := 443
                   originProtocolPolicy := "match-viewer"
                   originSslProtocols :=
                     { quantity := 3, items := ["TLSv1", "TLSv1.1", "TLSv1.2"] }
                   originReadTimeout := 30
                   originKeepaliveTimeout := 5 } }] }
      aliases := none }
  let withAliases :=
    match pyGet al "domain" with
    | some alias_domain => { base with aliases := some [alias_domain] }
    | none => base
  match pyGet al "certificate_arn" with
  | some arn =>
      { withAliases with
        viewerCertificate :=
          { withAliases.viewerCertificate with acmCertificateArn := some arn } }
  | none => withAliases

/-! ### Provider-side resources and state -/

/-- A cache policy as stored and listed by the provider. -/
structure CachePolicy where
  id : String
  cachePolicyConfig : CachePolicyConfig
deriving DecidableEq

/-- An origin request policy as stored and listed by the provider. -/
structure OriginRequestPolicy where
  id : String
  originRequestPolicyConfig : OriginRequestPolicyConfig
deriving DecidableEq

/-- A response headers policy as stored and listed by the provider. -/
structure ResponseHeadersPolicy where
  id : String
  responseHeadersPolicyConfig : ResponseHeadersPolicyConfig
deriving DecidableEq

/-- A distribution as it appears in a `list_distributions` item.  Per the
CloudFront API, `DomainName` here is the domain name that CloudFront
assigned to the distribution when it was created (for example
`d111111abcdef8.cloudfront.net`); it is not the domain of the
distribution's origin, which lives in the config under
`Origins.Items[..].DomainName`. -/
structure Distribution where
  id : String
  domainName : String
  distributionConfig : DistributionConfig
deriving DecidableEq

/-- The provider's catalogs (custom-scoped, the only scope this program
lists or creates in) plus a counter used for fresh provider-assigned
identifiers. -/
structure AwsState where
  cachePolicies : List CachePolicy
  originRequestPolicies : List OriginRequestPolicy
  responseHeadersPolicies : List ResponseHeadersPolicy
  distributions : List Distribution
  counter : Nat
deriving DecidableEq

/-- A provider with no resources at all. -/
def emptyAwsState : AwsState :=
  { cachePolicies := []
    originRequestPolicies := []
    responseHeadersPolicies := []
    distributions := []
    counter := 0 }

/-- A fresh provider-assigned resource id. -/
def fresh_id (st : AwsState) : String :=
  "id-" ++ toString st.counter

/-- A fresh provider-assigned distribution domain name, from the
`*.cloudfront.net` namespace. -/
def fresh_distribution_domain (st : AwsState) : String :=
  "d" ++ toString st.counter ++ ".cloudfront.net"

/-- One API call issued by the client, as observable in a trace. -/
inductive ApiCall where
  | listCachePolicies
  | createCachePolicyCall (cfg : CachePolicyConfig)
  | listOriginRequestPolicies
  | createOriginRequestPolicyCall (cfg : OriginRequestPolicyConfig)
  | listResponseHeadersPolicies
  | createResponseHeadersPolicyCall (cfg : ResponseHeadersPolicyConfig)
  | listDistributions
  | createDistributionCall (cfg : DistributionConfig)
deriving DecidableEq

/-- Is this API call a create call (a remote mutation)? -/
def is_create_call : ApiCall → Bool
  | ApiCall.createCachePolicyCall _ => true
  | ApiCall.createOriginRequestPolicyCall _ => true
  | ApiCall.createResponseHeadersPolicyCall _ => true
  | ApiCall.createDistributionCall _ => true
  | _ => false

/-- Is this API call a `create_distribution` call? -/
def is_create_distribution_call : ApiCall → Bool
  | ApiCall.createDistributionCall _ => true
  | _ => false

/-! ### The client operations (`CloudFrontClient`) -/

/-- The scan of `CloudFrontClient.get_cache_policy`: the first listed
policy whose name equals the sanitized input name. -/
def find_cache_policy (ps : List CachePolicy) (name : String) : Option CachePolicy :=
  ps.find? (fun p => p.cachePolicyConfig.name == sanitize_name name)

/-- `CloudFrontClient.get_cache_policy`. -/
def get_cache_policy (st : AwsState) (name : String) :
    Option CachePolicy × List ApiCall :=
  (find_cache_policy st.cachePolicies name, [ApiCall.listCachePolicies])

/-- `CloudFrontClient.create_cache_policy`. -/
def create_cache_policy (st : AwsState) (name : String)
    (min_ttl default_ttl max_ttl : Int) :
    CachePolicy × AwsState × List ApiCall :=
  let cfg := mk_cache_policy_config name min_ttl default_ttl max_ttl
  let p : CachePolicy := { id := fresh_id st, cachePolicyConfig := cfg }
  (p,
   { st with cachePolicies := st.cachePolicies ++ [p], counter := st.counter + 1 },
   [ApiCall.createCachePolicyCall cfg])

/-- The scan of `CloudFrontClient.get_origin_request_policy`. -/
def find_origin_request_policy (ps : List OriginRequestPolicy) (name : String) :
    Option OriginRequestPolicy :=
  ps.find? (fun p => p.originRequestPolicyConfig.name == sanitize_name name)

/-- `CloudFrontClient.get_origin_request_policy`. -/
def get_origin_request_policy (st : AwsState) (name : String) :
    Option OriginRequestPolicy × List ApiCall :=
  (find_origin_request_policy st.originRequestPolicies name,
   [ApiCall.listOriginRequestPolicies])

/-- `CloudFrontClient.create_origin_request_policy`. -/
def create_origin_request_policy (st : AwsState) (name : String) :
    OriginRequestPolicy × AwsState × List ApiCall :=
  let cfg := mk_origin_request_policy_config name
  let p : OriginRequestPolicy := { id := fresh_id st, originRequestPolicyConfig := cfg }
  (p,
   { st with
      originRequestPolicies := st.originRequestPolicies ++ [p]
      counter := st.counter + 1 },
   [ApiCall.createOriginRequestPolicyCall cfg])

/-- The scan of `CloudFrontClient.get_response_headers_policy`. -/
def find_response_headers_policy (ps : List ResponseHeadersPolicy) (name : String) :
    Option ResponseHeadersPolicy :=
  ps.find? (fun p => p.responseHeadersPolicyConfig.name == sanitize_name name)

/-- `CloudFrontClient.get_response_headers_policy`. -/
def get_response_headers_policy (st : AwsState) (name : String) :
    Option ResponseHeadersPolicy × List ApiCall :=
  (find_response_headers_policy st.responseHeadersPolicies name,
   [ApiCall.listResponseHeadersPolicies])

/-- `CloudFrontClient.create_response_headers_policy`. -/
def create_response_headers_policy (st : AwsState) (name : String) :
    ResponseHeadersPolicy × AwsState × List ApiCall :=
  let cfg := mk_response_headers_policy_config name
  let p : ResponseHeadersPolicy :=
    { id := fresh_id st, responseHeadersPolicyConfig := cfg }
  (p,
   { st with
      responseHeadersPolicies := st.responseHeadersPolicies ++ [p]
      counter := st.counter + 1 },
   [ApiCall.createResponseHeadersPolicyCall cfg])

/-- The scan of `CloudFrontClient.get_distribution`: compares each listed
distribution's `DomainName` (the provider-assigned one) with the given
domain. -/
def find_distribution (ds : List Distribution) (domain : String) :
    Option Distribution :=
  ds.find? (fun d => d.domainName == domain)

/-- `CloudFrontClient.get_distribution`. -/
def get_distribution (st : AwsState) (domain : String) :
    Option Distribution × List ApiCall :=
  (find_distribution st.distributions domain, [ApiCall.listDistributions])

/-- `CloudFrontClient.create_distribution`.  The provider stores the new
distribution and assigns it an id and a `*.cloudfront.net` domain name. -/
def create_distribution (st : AwsState) (domain : String)
    (cache_policy_id origin_request_policy_id response_headers_policy_id : String)
    (aliasArg : Option AliasDict) :
    Distribution × AwsState × List ApiCall :=
  let cfg := mk_distribution_config domain cache_policy_id
    origin_request_policy_id response_headers_policy_id aliasArg
    ("uuid-" ++ toString st.counter)
  let d : Distribution :=
    { id := fresh_id st
      domainName := fresh_distribution_domain st
      distributionConfig := cfg }
  (d,
   { st with distributions := st.distributions ++ [d], counter := st.counter + 1 },
   [ApiCall.createDistributionCall cfg])

/-! ### The reconciliation command (`create_cloudfront_resources`) -/

/-- The `CLOUDFRONT_CACHE_CONFIG` mapping. -/
structure CacheConfig where
  min_ttl : Int
  default_ttl : Int
  max_ttl : Int
deriving DecidableEq

/-- One `CLOUDFRONT_EXTRA_DOMAINS` entry (all three keys are required by
the command, which subscripts them directly).  The entry's `alias` key is
called `aliasDomain` here. -/
structure ExtraDomain where
  domain : String
  aliasDomain : String
  certificate_arn : String
deriving DecidableEq

/-- The get-or-create idiom for origin request policies:
`if (p := get(name)) is None: p = create(name)`. -/
def goc_origin_request_policy (st : AwsState) (name : String) :
    OriginRequestPolicy × AwsState × List ApiCall :=
  match get_origin_request_policy st name with
  | (some p, calls) => (p, st, calls)
  | (none, calls) =>
      let r := create_origin_request_policy st name
      (r.1, r.2.1, calls ++ r.2.2)

/-- The get-or-create idiom for response headers policies. -/
def goc_response_headers_policy (st : AwsState) (name : String) :
    ResponseHeadersPolicy × AwsState × List ApiCall :=
  match get_response_headers_policy st name with
  | (some p, calls) => (p, st, calls)
  | (none, calls) =>
      let r := create_response_headers_policy st name
      (r.1, r.2.1, calls ++ r.2.2)

/-- The get-or-create idiom for cache policies, with the TTLs taken from
the `CLOUDFRONT_CACHE_CONFIG` mapping. -/
def goc_cache_policy (st : AwsState) (name : String) (cc : CacheConfig) :
    CachePolicy × AwsState × List ApiCall :=
  match get_cache_policy st name with
  | (some p, calls) => (p, st, calls)
  | (none, calls) =>
      let r := create_cache_policy st name cc.min_ttl cc.default_ttl cc.max_ttl
      (r.1, r.2.1, calls ++ r.2.2)

/-- The body of the `for domain, origin_config in origins.items()` loop:
origin-request-policy get-or-create, response-headers-policy
get-or-create, cache-policy get-or-create, then distribution creation
unless one is found for the domain. -/
def process_domain (st : AwsState) (domain : String) (aliasArg : Option AliasDict)
    (cc : CacheConfig) : AwsState × List ApiCall :=
  let rp := goc_origin_request_policy st (domain ++ "-origin-request-policy")
  let hp := goc_response_headers_policy rp.2.1 (domain ++ "-response-headers-policy")
  let cp := goc_cache_policy hp.2.1 (domain ++ "-cache-policy") cc
  match get_distribution cp.2.1 domain with
  | (some _, calls) => (cp.2.1, rp.2.2 ++ hp.2.2 ++ cp.2.2 ++ calls)
  | (none, calls) =>
      let r := create_distribution cp.2.1 domain cp.1.id rp.1.id hp.1.id aliasArg
      (r.2.1, rp.2.2 ++ hp.2.2 ++ cp.2.2 ++ calls ++ r.2.2)

/-- The `origins` dict literal of the command: the LMS domain, the CMS
domain, then one entry per extra domain, each with its alias dict; built
with Python dict-literal semantics (duplicate keys: last write wins). -/
def build_origins (lms cms : String) (extras : List ExtraDomain) :
    List (String × Option AliasDict) :=
  let base := pyDictInsert (pyDictInsert ([] : List (String × Option AliasDict)) lms none) cms none
  extras.foldl
    (fun d x =>
      pyDictInsert d x.domain
        (some [("domain", x.aliasDomain), ("certificate_arn", x.certificate_arn)]))
    base

/-- The processed domain list: the keys of the `origins` dict, in
iteration order. -/
def processed_domains (lms cms : String) (extras : List ExtraDomain) : List String :=
  (build_origins lms cms extras).map Prod.fst

/-- The whole `create_cloudfront_resources` command: build the `origins`
dict, run the per-domain loop, then echo one completion message naming
the loop variable after the loop (the last domain iterated). -/
def create_cloudfront_resources (st : AwsState) (lms cms : String)
    (extras : List ExtraDomain) (cc : CacheConfig) :
    AwsState × List ApiCall × List String :=
  let origins := build_origins lms cms extras
  let r := origins.foldl
    (fun acc entry =>
      let s := process_domain acc.1 entry.1 entry.2 cc
      (s.1, acc.2 ++ s.2))
    (st, ([] : List ApiCall))
  let echoed : List String :=
    match origins.getLast? with
    | some entry => ["CloudFront is set up for " ++ entry.1]
    | none => []
  (r.1, r.2, echoed)

/-! ### Character-level lemmas about name sanitization -/

/-- Round trip for valid code points. -/
theorem char_ofNat_toNat (n : Nat) (h : n.isValidChar) : (Char.ofNat n).toNat = n := by
  unfold Char.ofNat
  rw [dif_pos h]
  unfold Char.ofNatAux Char.toNat
  simp [UInt32.toNat, BitVec.toNat_ofNatLt]

/-- `Char.toLower` on an ASCII uppercase letter adds 32 to the code point. -/
theorem toLower_of_upper (c : Char) (h1 : 65 ≤ c.toNat) (h2 : c.toNat ≤ 90) :
    Char.toLower c = Char.ofNat (c.toNat + 32) := by
  unfold Char.toLower
  rw [if_pos]
  simp [h1, h2]

/-- `Char.toLower` fixes any character that is not an ASCII uppercase
letter. -/
theorem toLower_eq_self_of_not_upper (c : Char)
    (h : ¬(65 ≤ c.toNat ∧ c.toNat ≤ 90)) : Char.toLower c = c := by
  unfold Char.toLower
  rw [if_neg]
  simp only [Bool.and_eq_true, decide_eq_true_eq, ge_iff_le, not_and]
  intro h1 h2
  exact h ⟨h1, h2⟩

/-- The code point of `Char.toLower` of an ASCII uppercase letter. -/
theorem toLower_toNat_of_upper (c : Char) (h1 : 65 ≤ c.toNat) (h2 : c.toNat ≤ 90) :
    (Char.toLower c).toNat = c.toNat + 32 := by
  rw [toLower_of_upper c h1 h2]
  apply char_ofNat_toNat
  left
  have : c.toNat + 32 ≤ 122 := by omega
  omega

/-- One sanitization step is idempotent on characters. -/
theorem sanitize_char_idem (c : Char) : sanitize_char (sanitize_char c) = sanitize_char c := by
  by_cases hu : 65 ≤ c.toNat ∧ c.toNat ≤ 90
  · have hn : (Char.toLower c).toNat = c.toNat + 32 := toLower_toNat_of_upper c hu.1 hu.2
    have hne1 : Char.toLower c ≠ '.' := by
      intro he
      rw [he] at hn
      rw [show ('.').toNat = 46 from rfl] at hn
      omega
    have hne2 : Char.toLower c ≠ ' ' := by
      intro he
      rw [he] at hn
      rw [show (' ').toNat = 32 from rfl] at hn
      omega
    have h1 : sanitize_char c = Char.toLower c := by
      simp [sanitize_char, replaceChar, hne1, hne2]
    rw [h1]
    have hnu : ¬(65 ≤ (Char.toLower c).toNat ∧ (Char.toLower c).toNat ≤ 90) := by
      rw [hn]
      omega
    have h2 : Char.toLower (Char.toLower c) = Char.toLower c :=
      toLower_eq_self_of_not_upper _ hnu
    simp [sanitize_char, replaceChar, h2, hne1, hne2]
  · have hl : Char.toLower c = c := toLower_eq_self_of_not_upper c hu
    by_cases hd : c = '.'
    · subst hd
      decide
    · by_cases hs : c = ' '
      · subst hs
        decide
      · have h1 : sanitize_char c = c := by
          simp [sanitize_char, replaceChar, hl, hd, hs]
        rw [h1, h1]

/-- `sanitize_name` acts on the underlying character list by mapping
`sanitize_char`. -/
theorem sanitize_name_data (s : String) :
    sanitize_name s = ⟨s.data.map sanitize_char⟩ := by
  show String.mk (((s.data.map Char.toLower).map (replaceChar '.' '-')).map (replaceChar ' ' '-'))
      = String.mk (s.data.map sanitize_char)
  rw [List.map_map, List.map_map]
  rfl

/-- Mapping the character sanitization twice is the same as mapping it
once. -/
theorem sanitize_data_idem (l : List Char) :
    (l.map sanitize_char).map sanitize_char = l.map sanitize_char := by
  induction l with
  | nil => rfl
  | cons a t ih =>
      simp only [List.map_cons]
      rw [sanitize_char_idem a, ih]

/-- Claim C8: name sanitization is the pure function lowercase, then
replace every `'.'` and every `' '` with `'-'`; and it is idempotent:
`sanitize_name (sanitize_name x) = sanitize_name x` for every string. -/
theorem sanitize_name_pure_and_idem :
    (∀ s : String, sanitize_name s = pyReplace (pyReplace (pyLower s) '.' '-') ' ' '-') ∧
    (∀ s : String, sanitize_name (sanitize_name s) = sanitize_name s) := by
  refine ⟨fun s => rfl, fun s => ?_⟩
  have h1 := sanitize_name_data s
  have h2 := sanitize_name_data (sanitize_name s)
  rw [h2, h1]
  exact congrArg String.mk (sanitize_data_idem s.data)

/-! ### The cache-policy creation request (claim C7) -/

/-- Claim C7: `create_cache_policy("Example.com", 0, 300, 3600)` issues a
request whose config has name `example-com`, `MinTTL 0`, `DefaultTTL 300`,
`MaxTTL 3600`, gzip and brotli accept-encoding enabled, header whitelist
exactly `["Origin"]`, cookie behavior `none` and query-string behavior
`all`. -/
theorem create_cache_policy_example_config :
    mk_cache_policy_config "Example.com" 0 300 3600 =
      { name := "example-com"
        comment := "CloudFront cache policy for Example.com."
        defaultTTL := 300
        maxTTL := 3600
        minTTL := 0
        parametersInCacheKeyAndForwardedToOrigin :=
          { enableAcceptEncodingGzip := true
            enableAcceptEncodingBrotli := true
            headersConfig :=
              { headerBehavior := "whitelist"
                headersQuantity := 1
                headersItems := ["Origin"] }
            cookiesConfig := { cookieBehavior := "none" }
            queryStringsConfig := { queryStringBehavior := "all" } } } := by
  decide

/-! ### Distribution configs with and without alias (claims C5, C6, C10) -/

/-- Claim C5: with `alias = None`, the distribution config has no
`Aliases` key, `CloudFrontDefaultCertificate` is true, and
`SSLSupportMethod` is `static-ip`. -/
theorem create_distribution_no_alias_config
    (domain cid oid rid ref : String) :
    (mk_distribution_config domain cid oid rid none ref).aliases = none ∧
    (mk_distribution_config domain cid oid rid none ref).viewerCertificate.cloudFrontDefaultCertificate = true ∧
    (mk_distribution_config domain cid oid rid none ref).viewerCertificate.sslSupportMethod = "static-ip" :=
  ⟨rfl, rfl, rfl⟩

/-! ### Domain set construction (claim C3) -/

/-- Overwriting an existing key leaves the key list of a Python dict
unchanged. -/
theorem pyDictInsert_keys_nodup {V : Type} (d : List (String × V)) (k : String) (v : V)
    (h : (d.map Prod.fst).Nodup) : ((pyDictInsert d k v).map Prod.fst).Nodup := by
  unfold pyDictInsert
  split
  · have heq : (d.map (fun p => if p.1 == k then (k, v) else p)).map Prod.fst
        = d.map Prod.fst := by
      rw [List.map_map]
      apply List.map_congr_left
      intro p _
      by_cases hp : p.1 = k
      · simp [hp]
      · simp [hp]
    rw [heq]
    exact h
  · next hc =>
    rw [List.map_append]
    rw [List.nodup_append]
    refine ⟨h, List.nodup_singleton k, ?_⟩
    intro a ha hak
    have hak' : a = k := by simpa using hak
    subst hak'
    apply hc
    rw [List.any_eq_true]
    obtain ⟨p, hp, hpk⟩ := List.mem_map.mp ha
    exact ⟨p, hp, by simp [hpk]⟩

/-- The fold over the extra domains preserves distinctness of the keys. -/
theorem build_origins_fold_keys_nodup (extras : List ExtraDomain) :
    ∀ d : List (String × Option AliasDict), (d.map Prod.fst).Nodup →
    ((extras.foldl
        (fun d x => pyDictInsert d x.domain
          (some [("domain", x.aliasDomain), ("certificate_arn", x.certificate_arn)]))
        d).map Prod.fst).Nodup := by
  induction extras with
  | nil => intro d h; exact h
  | cons x xs ih =>
      intro d h
      exact ih _ (pyDictInsert_keys_nodup _ _ _ h)

/-- Claim C3: the processed domain list is the LMS domain, then the CMS
domain, then the extra domains, deduplicated with the domain as mapping
key; for the spec's concrete example it is exactly
`["lms.x", "cms.x", "apps.x"]`, and in general it never contains a domain
twice. -/
theorem processed_domains_order_and_dedup :
    processed_domains "lms.x" "cms.x"
        [{ domain := "apps.x", aliasDomain := "mfe.x", certificate_arn := "arn:y" }]
      = ["lms.x", "cms.x", "apps.x"] ∧
    ∀ (lms cms : String) (extras : List ExtraDomain),
      (processed_domains lms cms extras).Nodup := by
  constructor
  · decide
  · intro lms cms extras
    unfold processed_domains build_origins
    apply build_origins_fold_keys_nodup
    apply pyDictInsert_keys_nodup
    apply pyDictInsert_keys_nodup
    simp

/-! ### The completion message (claim C9) -/

/-- Inserting into a Python dict never yields the empty dict. -/
theorem pyDictInsert_ne_nil {V : Type} (d : List (String × V)) (k : String) (v : V) :
    pyDictInsert d k v ≠ [] := by
  unfold pyDictInsert
  split
  · next hc =>
    intro he
    rw [List.map_eq_nil_iff] at he
    subst he
    simp at hc
  · simp

/-- The `origins` dict always has at least one entry (the primary
domains are always inserted). -/
theorem build_origins_ne_nil (lms cms : String) (extras : List ExtraDomain) :
    build_origins lms cms extras ≠ [] := by
  unfold build_origins
  have haux : ∀ (e : List ExtraDomain) (d : List (String × Option AliasDict)), d ≠ [] →
      e.foldl
        (fun d x => pyDictInsert d x.domain
          (some [("domain", x.aliasDomain), ("certificate_arn", x.certificate_arn)]))
        d ≠ [] := by
    intro e
    induction e with
    | nil => intro d h; exact h
    | cons x xs ih =>
        intro d _
        exact ih _ (pyDictInsert_ne_nil _ _ _)
  exact haux extras _ (pyDictInsert_ne_nil _ _ _)

/-- Claim C9: the processed domain set is never empty, and after the loop
the command prints exactly one completion message, naming the last domain
processed (the final key in iteration order). -/
theorem completion_message_last_domain (st : AwsState) (lms cms : String)
    (extras : List ExtraDomain) (cc : CacheConfig) :
    processed_domains lms cms extras ≠ [] ∧
    (create_cloudfront_resources st lms cms extras cc).2.2 =
      ["CloudFront is set up for " ++ (processed_domains lms cms extras).getLastD ""] := by
  have hne := build_origins_ne_nil lms cms extras
  constructor
  · unfold processed_domains
    intro he
    exact hne (List.map_eq_nil_iff.mp he)
  · unfold create_cloudfront_resources
    cases hg : (build_origins lms cms extras).getLast? with
    | none => exact absurd (List.getLast?_eq_none_iff.mp hg) hne
    | some entry =>
        simp only
        rw [hg]
        have hlast : (processed_domains lms cms extras).getLast? = some entry.1 := by
          unfold processed_domains
          rw [List.getLast?_map, hg]
          rfl
        rw [List.getLastD_eq_getLast?, hlast]
        rfl

/-! ### First-match semantics of the lookups (claim C4) -/

/-- `List.find?` returns `some a` exactly when the list splits as
`l1 ++ a :: l2` with nothing in `l1` satisfying the predicate. -/
theorem find?_eq_some_first {α : Type} (p : α → Bool) (l : List α) (a : α) :
    l.find? p = some a ↔
      p a = true ∧ ∃ l1 l2, l = l1 ++ a :: l2 ∧ ∀ x ∈ l1, p x = false := by
  induction l with
  | nil => simp
  | cons b t ih =>
      cases hb : p b with
      | false =>
          rw [List.find?_cons_of_neg _ (by simp [hb]), ih]
          constructor
          · rintro ⟨ha, l1, l2, rfl, hl1⟩
            refine ⟨ha, b :: l1, l2, rfl, ?_⟩
            intro x hx
            rcases List.mem_cons.mp hx with rfl | hx'
            · exact hb
            · exact hl1 x hx'
          · rintro ⟨ha, l1, l2, heq, hl1⟩
            cases l1 with
            | nil =>
                injection heq with h1 h2
                subst h1
                rw [hb] at ha
                exact absurd ha (by simp)
            | cons c l1' =>
                injection heq with h1 h2
                subst h1
                exact ⟨ha, l1', l2, h2, fun x hx => hl1 x (List.mem_cons_of_mem _ hx)⟩
      | true =>
          rw [List.find?_cons_of_pos _ hb]
          constructor
          · intro h
            injection h with h'
            subst h'
            exact ⟨hb, [], t, rfl, by simp⟩
          · rintro ⟨ha, l1, l2, heq, hl1⟩
            cases l1 with
            | nil =>
                injection heq with h1 h2
                rw [h1]
            | cons c l1' =>
                injection heq with h1 h2
                exfalso
                have hc := hl1 c (by simp)
                rw [← h1, hb] at hc
                simp at hc

/-- First-match semantics of a scan comparing a projected name against a
target: absent exactly when no element matches, and `some a` exactly when
`a` matches and everything listed before it does not. -/
theorem find_by_name_spec {α : Type} (f : α → String) (l : List α) (target : String) :
    (l.find? (fun x => f x == target) = none ↔ ∀ x ∈ l, f x ≠ target) ∧
    (∀ a, l.find? (fun x => f x == target) = some a ↔
      f a = target ∧ ∃ l1 l2, l = l1 ++ a :: l2 ∧ ∀ x ∈ l1, f x ≠ target) := by
  constructor
  · rw [List.find?_eq_none]
    constructor
    · intro h x hx
      simpa using h x hx
    · intro h x hx
      simpa using h x hx
  · intro a
    rw [find?_eq_some_first]
    constructor
    · rintro ⟨ha, l1, l2, heq, hl1⟩
      exact ⟨by simpa using ha, l1, l2, heq, fun x hx => by simpa using hl1 x hx⟩
    · rintro ⟨ha, l1, l2, heq, hl1⟩
      exact ⟨by simpa using ha, l1, l2, heq, fun x hx => by simpa using hl1 x hx⟩

/-- Claim C4: for every name and each of the three policy kinds, the
lookup returns the first listed resource whose provider-side name equals
the sanitized input name, and absent when no listed resource matches. -/
theorem get_policy_first_match_semantics (st : AwsState) (name : String) :
    (((get_cache_policy st name).1 = none ↔
        ∀ p ∈ st.cachePolicies, p.cachePolicyConfig.name ≠ sanitize_name name) ∧
      ∀ p, (get_cache_policy st name).1 = some p ↔
        p.cachePolicyConfig.name = sanitize_name name ∧
        ∃ l1 l2, st.cachePolicies = l1 ++ p :: l2 ∧
          ∀ q ∈ l1, q.cachePolicyConfig.name ≠ sanitize_name name) ∧
    (((get_origin_request_policy st name).1 = none ↔
        ∀ p ∈ st.originRequestPolicies,
          p.originRequestPolicyConfig.name ≠ sanitize_name name) ∧
      ∀ p, (get_origin_request_policy st name).1 = some p ↔
        p.originRequestPolicyConfig.name = sanitize_name name ∧
        ∃ l1 l2, st.originRequestPolicies = l1 ++ p :: l2 ∧
          ∀ q ∈ l1, q.originRequestPolicyConfig.name ≠ sanitize_name name) ∧
    (((get_response_headers_policy st name).1 = none ↔
        ∀ p ∈ st.responseHeadersPolicies,
          p.responseHeadersPolicyConfig.name ≠ sanitize_name name) ∧
      ∀ p, (get_response_headers_policy st name).1 = some p ↔
        p.responseHeadersPolicyConfig.name = sanitize_name name ∧
        ∃ l1 l2, st.responseHeadersPolicies = l1 ++ p :: l2 ∧
          ∀ q ∈ l1, q.responseHeadersPolicyConfig.name ≠ sanitize_name name) := by
  refine ⟨⟨?_, ?_⟩, ⟨?_, ?_⟩, ⟨?_, ?_⟩⟩
  · exact (find_by_name_spec (fun p => p.cachePolicyConfig.name)
      st.cachePolicies (sanitize_name name)).1
  · exact (find_by_name_spec (fun p => p.cachePolicyConfig.name)
      st.cachePolicies (sanitize_name name)).2
  · exact (find_by_name_spec (fun p => p.originRequestPolicyConfig.name)
      st.originRequestPolicies (sanitize_name name)).1
  · exact (find_by_name_spec (fun p => p.originRequestPolicyConfig.name)
      st.originRequestPolicies (sanitize_name name)).2
  · exact (find_by_name_spec (fun p => p.responseHeadersPolicyConfig.name)
      st.responseHeadersPolicies (sanitize_name name)).1
  · exact (find_by_name_spec (fun p => p.responseHeadersPolicyConfig.name)
      st.responseHeadersPolicies (sanitize_name name)).2

/-! ### Reconciliation is not idempotent for the distribution (claim C1) -/

/-- Claim C1 is violated by the code: starting from the empty provider,
one reconciliation run for `lms.example.com` leaves exactly one
distribution, whose single origin is the domain itself; yet
`get_distribution` still reports absent, because it compares each listed
distribution's provider-assigned `DomainName` (a `*.cloudfront.net` name)
with the origin domain.  A second run against the otherwise unchanged
provider therefore issues one more create call — a second
`create_distribution` — instead of the zero creates the claim requires. -/
theorem second_run_recreates_distribution :
    (process_domain emptyAwsState "lms.example.com" none ⟨0, 300, 3600⟩).1.distributions.length = 1 ∧
    ((process_domain emptyAwsState "lms.example.com" none ⟨0, 300, 3600⟩).1.distributions.map
        (fun d => d.distributionConfig.origins.items.map (fun o => o.domainName)))
      = [["lms.example.com"]] ∧
    find_distribution
        (process_domain emptyAwsState "lms.example.com" none ⟨0, 300, 3600⟩).1.distributions
        "lms.example.com" = none ∧
    (process_domain (process_domain emptyAwsState "lms.example.com" none ⟨0, 300, 3600⟩).1
        "lms.example.com" none ⟨0, 300, 3600⟩).2.countP is_create_call = 1 ∧
    (process_domain (process_domain emptyAwsState "lms.example.com" none ⟨0, 300, 3600⟩).1
        "lms.example.com" none ⟨0, 300, 3600⟩).2.countP is_create_distribution_call = 1 := by
  decide

/-! ### Alias handling in `create_distribution` (claims C6 and C10) -/

/-- Claim C6: when the alias dict has both a `domain` and a
`certificate_arn`, the alias domain becomes the sole `Aliases` item, the
certificate ARN is attached, TLS is `sni-only`, and the provider default
certificate is not used. -/
theorem create_distribution_alias_config (domain cid oid rid ref : String)
    (al : AliasDict) (ad arn : String)
    (hd : pyGet al "domain" = some ad)
    (harn : pyGet al "certificate_arn" = some arn) :
    (mk_distribution_config domain cid oid rid (some al) ref).aliases = some [ad] ∧
    (mk_distribution_config domain cid oid rid (some al) ref).viewerCertificate.acmCertificateArn = some arn ∧
    (mk_distribution_config domain cid oid rid (some al) ref).viewerCertificate.sslSupportMethod = "sni-only" ∧
    (mk_distribution_config domain cid oid rid (some al) ref).viewerCertificate.cloudFrontDefaultCertificate = false := by
  have hne : al ≠ [] := by
    intro h
    subst h
    simp [pyGet] at hd
  have hie : al.isEmpty = false := by
    cases al with
    | nil => exact absurd rfl hne
    | cons a t => rfl
  have hlen : (al.length == 0) = false := by
    cases al with
    | nil => exact absurd rfl hne
    | cons a t => rfl
  simp [mk_distribution_config, hd, harn, hie, hlen]

/-- Concrete instance of claim C6, at the spec's example alias dict. -/
theorem create_distribution_alias_config_witness :
    pyGet [("domain", "mfe.example.com"), ("certificate_arn", "arn:x")] "domain"
      = some "mfe.example.com" ∧
    pyGet [("domain", "mfe.example.com"), ("certificate_arn", "arn:x")] "certificate_arn"
      = some "arn:x" ∧
    ((mk_distribution_config "cdn.example.com" "cid" "oid" "rid"
        (some [("domain", "mfe.example.com"), ("certificate_arn", "arn:x")]) "ref").aliases
      = some ["mfe.example.com"] ∧
     (mk_distribution_config "cdn.example.com" "cid" "oid" "rid"
        (some [("domain", "mfe.example.com"), ("certificate_arn", "arn:x")]) "ref").viewerCertificate.acmCertificateArn
      = some "arn:x" ∧
     (mk_distribution_config "cdn.example.com" "cid" "oid" "rid"
        (some [("domain", "mfe.example.com"), ("certificate_arn", "arn:x")]) "ref").viewerCertificate.sslSupportMethod
      = "sni-only" ∧
     (mk_distribution_config "cdn.example.com" "cid" "oid" "rid"
        (some [("domain", "mfe.example.com"), ("certificate_arn", "arn:x")]) "ref").viewerCertificate.cloudFrontDefaultCertificate
      = false) :=
  ⟨by decide, by decide,
   create_distribution_alias_config "cdn.example.com" "cid" "oid" "rid" "ref"
     [("domain", "mfe.example.com"), ("certificate_arn", "arn:x")] "mfe.example.com" "arn:x"
     (by decide) (by decide)⟩

/-- Claim C10: an alias dict with a `certificate_arn` but no `domain` is
not rejected: the config gets no `Aliases` key, does not use the provider
default certificate, selects `sni-only`, and attaches the ARN anyway. -/
theorem create_distribution_arn_without_domain (domain cid oid rid ref : String)
    (al : AliasDict) (arn : String)
    (hd : pyGet al "domain" = none)
    (harn : pyGet al "certificate_arn" = some arn) :
    (mk_distribution_config domain cid oid rid (some al) ref).aliases = none ∧
    (mk_distribution_config domain cid oid rid (some al) ref).viewerCertificate.cloudFrontDefaultCertificate = false ∧
    (mk_distribution_config domain cid oid rid (some al) ref).viewerCertificate.sslSupportMethod = "sni-only" ∧
    (mk_distribution_config domain cid oid rid (some al) ref).viewerCertificate.acmCertificateArn = some arn := by
  have hne : al ≠ [] := by
    intro h
    subst h
    simp [pyGet] at harn
  have hie : al.isEmpty = false := by
    cases al with
    | nil => exact absurd rfl hne
    | cons a t => rfl
  have hlen : (al.length == 0) = false := by
    cases al with
    | nil => exact absurd rfl hne
    | cons a t => rfl
  simp [mk_distribution_config, hd, harn, hie, hlen]

/-- Concrete instance of claim C10, at an alias dict holding only a
certificate ARN. -/
theorem create_distribution_arn_without_domain_witness :
    pyGet [("certificate_arn", "arn:x")] "domain" = none ∧
    pyGet [("certificate_arn", "arn:x")] "certificate_arn" = some "arn:x" ∧
    ((mk_distribution_config "cdn.example.com" "cid" "oid" "rid"
        (some [("certificate_arn", "arn:x")]) "ref").aliases = none ∧
     (mk_distribution_config "cdn.example.com" "cid" "oid" "rid"
        (some [("certificate_arn", "arn:x")]) "ref").viewerCertificate.cloudFrontDefaultCertificate
      = false ∧
     (mk_distribution_config "cdn.example.com" "cid" "oid" "rid"
        (some [("certificate_arn", "arn:x")]) "ref").viewerCertificate.sslSupportMethod
      = "sni-only" ∧
     (mk_distribution_config "cdn.example.com" "cid" "oid" "rid"
        (some [("certificate_arn", "arn:x")]) "ref").viewerCertificate.acmCertificateArn
      = some "arn:x") :=
  ⟨by decide, by decide,
   create_distribution_arn_without_domain "cdn.example.com" "cid" "oid" "rid" "ref"
     [("certificate_arn", "arn:x")] "arn:x" (by decide) (by decide)⟩

/-! ### Fixed order of the per-domain get-or-create steps (claim C2) -/

/-- Claim C2: for every provider state and domain, the per-domain loop
body performs the four lookups in the fixed order origin-request-policy,
response-headers-policy, cache-policy, distribution, issuing a create
call for a kind exactly when that kind's lookup came back absent; the
get-or-create result is the looked-up resource when found and the newly
created one otherwise; the distribution config references exactly the
three resulting policy IDs; and when a distribution for the domain
already exists the provider's distribution catalog is left untouched. -/
theorem process_domain_fixed_order_get_or_create (st : AwsState) (domain : String)
    (al : Option AliasDict) (cc : CacheConfig) :
    let orpn := domain ++ "-origin-request-policy"
    let rhpn := domain ++ "-response-headers-policy"
    let cpn := domain ++ "-cache-policy"
    let rp := goc_origin_request_policy st orpn
    let hp := goc_response_headers_policy rp.2.1 rhpn
    let cp := goc_cache_policy hp.2.1 cpn cc
    let dcfg := mk_distribution_config domain cp.1.id rp.1.id hp.1.id al
      ("uuid-" ++ toString cp.2.1.counter)
    let newd : Distribution :=
      { id := fresh_id cp.2.1
        domainName := fresh_distribution_domain cp.2.1
        distributionConfig := dcfg }
    rp.1 = (find_origin_request_policy st.originRequestPolicies orpn).getD
        (create_origin_request_policy st orpn).1 ∧
    hp.1 = (find_response_headers_policy st.responseHeadersPolicies rhpn).getD
        (create_response_headers_policy rp.2.1 rhpn).1 ∧
    cp.1 = (find_cache_policy st.cachePolicies cpn).getD
        (create_cache_policy hp.2.1 cpn cc.min_ttl cc.default_ttl cc.max_ttl).1 ∧
    (process_domain st domain al cc).2 =
      [ApiCall.listOriginRequestPolicies]
      ++ (if (find_origin_request_policy st.originRequestPolicies orpn).isSome then []
          else [ApiCall.createOriginRequestPolicyCall (mk_origin_request_policy_config orpn)])
      ++ [ApiCall.listResponseHeadersPolicies]
      ++ (if (find_response_headers_policy st.responseHeadersPolicies rhpn).isSome then []
          else [ApiCall.createResponseHeadersPolicyCall (mk_response_headers_policy_config rhpn)])
      ++ [ApiCall.listCachePolicies]
      ++ (if (find_cache_policy st.cachePolicies cpn).isSome then []
          else [ApiCall.createCachePolicyCall
            (mk_cache_policy_config cpn cc.min_ttl cc.default_ttl cc.max_ttl)])
      ++ [ApiCall.listDistributions]
      ++ (if (find_distribution st.distributions domain).isSome then []
          else [ApiCall.createDistributionCall dcfg]) ∧
    (process_domain st domain al cc).1.distributions =
      (if (find_distribution st.distributions domain).isSome then st.distributions
       else st.distributions ++ [newd]) := by
  cases h1 : find_origin_request_policy st.originRequestPolicies (domain ++ "-origin-request-policy") <;>
    cases h2 : find_response_headers_policy st.responseHeadersPolicies (domain ++ "-response-headers-policy") <;>
      cases h3 : find_cache_policy st.cachePolicies (domain ++ "-cache-policy") <;>
        cases h4 : find_distribution st.distributions domain <;>
          simp [process_domain, goc_origin_request_policy, goc_response_headers_policy,
            goc_cache_policy, get_origin_request_policy, get_response_headers_policy,
            get_cache_policy, get_distribution, create_origin_request_policy,
            create_response_headers_policy, create_cache_policy, create_distribution,
            h1, h2, h3, h4]

end TutorCloudfront
